import Mathlib

/-!
Shallow embedding of src/src/DesignerWidgetMixin.ts (brj-widget-core).

The mixin wraps a user widget for use inside a visual designer.  Its
observable behaviour lives in five methods, embedded below with the
source names kept:

* beforeProperties     - the property resolver (lines 68-98)
* _valuePropertyIsNull - value-emptiness check (lines 100-103)
* _onlyContainsCursor  - cursor-only child classification (lines 112-121)
* afterRender          - the render postprocessor (lines 126-156)
* _renderTriggerResizeNode / _tryFocus / _focus - focus compensation
  (lines 158-204)
* _onMouseUp           - the interaction interceptor (lines 51-58)

JavaScript dynamic values are modelled by the inductive JsValue; an
object is a list of (field, value) pairs in assignment order, with the
last occurrence of a field winning on lookup, which is exactly the
observable semantics of object literals with spreads such as
{ a: x, ...b, ...c }.  Property access on undefined and null throws a
TypeError, modelled by Except Unit; property access on other primitives
yields undefined (string index properties and prototype members never
occur in the embedded code paths).  JS numbers appearing here (widget
ids, keys) are integral, so Int suffices.  Reference identity of
objects and functions is not modelled: every strict equality in the
source compares primitives (widget.id, activeWidgetId, key and
widgetName values are string | number per the TypeScript signatures),
and a strict comparison of an object with a primitive is false in both
JS and this model.
-/

/-- A JavaScript runtime value, as far as the mixin observes it. -/
inductive JsValue where
  | undefined : JsValue
  | null : JsValue
  | bool (b : Bool) : JsValue
  | num (n : Int) : JsValue
  | str (s : String) : JsValue
  | func (name : String) : JsValue
  | obj (fields : List (String × JsValue)) : JsValue
deriving Repr

/-- An object in construction order: later pairs overwrite earlier ones. -/
abbrev Obj := List (String × JsValue)

/-- Field lookup honouring last-assignment-wins: none means the field is
absent from the object. -/
def getField (o : Obj) (k : String) : Option JsValue :=
  match o with
  | [] => none
  | (k2, v) :: rest =>
    match getField rest k with
    | some v2 => some v2
    | none => if k2 = k then some v else none

/-- Field lookup as JS sees it: an absent field reads as undefined. -/
def getFieldD (o : Obj) (k : String) : JsValue :=
  (getField o k).getD JsValue.undefined

/-- JS truthiness (NaN does not occur in the embedded paths). -/
def jsTruthy : JsValue → Bool
  | JsValue.undefined => false
  | JsValue.null => false
  | JsValue.bool b => b
  | JsValue.num n => n != 0
  | JsValue.str s => s ≠ ""
  | JsValue.func _ => true
  | JsValue.obj _ => true

/-- JS strict equality on the values the source compares.  Objects and
functions compare by reference in JS; the source only ever compares
primitives (ids, keys, widget names), and comparing an object against a
primitive is false in both semantics, so reference identity is elided. -/
def strictEq : JsValue → JsValue → Bool
  | JsValue.undefined, JsValue.undefined => true
  | JsValue.null, JsValue.null => true
  | JsValue.bool a, JsValue.bool b => a == b
  | JsValue.num a, JsValue.num b => a == b
  | JsValue.str a, JsValue.str b => a == b
  | _, _ => false

/-- Property access v.k that can throw: undefined and null raise a
TypeError (Except.error), other primitives yield undefined, objects look
the field up. -/
def member (v : JsValue) (k : String) : Except Unit JsValue :=
  match v with
  | JsValue.undefined => Except.error ()
  | JsValue.null => Except.error ()
  | JsValue.obj fields => Except.ok (getFieldD fields k)
  | _ => Except.ok JsValue.undefined

/-- Non-throwing property access, used only where the source has already
guarded the receiver to be truthy (so never undefined or null). -/
def propAcc (v : JsValue) (k : String) : JsValue :=
  match v with
  | JsValue.obj fields => getFieldD fields k
  | _ => JsValue.undefined

/-- Fields contributed by spreading a value into an object literal:
spreading an object copies its fields, spreading a string copies its
index properties, spreading any other primitive contributes nothing. -/
def spreadFields : JsValue → Obj
  | JsValue.obj fields => fields
  | JsValue.str s => s.data.enum.map (fun p => (toString p.1, JsValue.str (String.singleton p.2)))
  | _ => []

/-- String(v) coercion for the values used as node keys. -/
def jsToString : JsValue → String
  | JsValue.undefined => "undefined"
  | JsValue.null => "null"
  | JsValue.bool b => if b then "true" else "false"
  | JsValue.num n => toString n
  | JsValue.str s => s
  | JsValue.func _ => "function"
  | JsValue.obj _ => "[object Object]"

/-- The css.emptyContainer class token imported from styles/base.m.css
(an opaque generated class-name string). -/
def cssEmptyContainer : String := "emptyContainer"

/-- The object literal \x7b root: css.emptyContainer \x7d forced onto empty
containers (line 79). -/
def emptyContainerExtra : JsValue :=
  JsValue.obj [("root", JsValue.str cssEmptyContainer)]

/-- The reserved key of the focus-compensation node,
_triggerResizeWidgetKey (line 45); a private field initialised once and
never reassigned, hence a constant. -/
def triggerResizeWidgetKey : String := "__triggerResize__"

/-- One live Designable instance: the overridable capability hooks, the
framework-supplied children (DNodes as JsValues), the resolved
configuration this.properties, and the mutable _key recorded by
afterRender. -/
structure Instance where
  isContainer : Bool
  needOverlay : Bool
  getDefaultValue : String
  children : List JsValue
  properties : Obj
  _key : String
deriving Repr

/-- _onlyContainsCursor (lines 112-121): more than one child is false;
otherwise children[0]!.properties.widget.widgetName is dereferenced
unconditionally (children[0]! is undefined when there are no children)
and compared strictly with the string Cursor. -/
def _onlyContainsCursor (self : Instance) : Except Unit Bool :=
  if self.children.length > 1 then
    Except.ok false
  else do
    let child := self.children.headD JsValue.undefined
    let childProps ← member child "properties"
    let cursorProperties ← member childProps "widget"
    let widgetName ← member cursorProperties "widgetName"
    Except.ok (strictEq widgetName (JsValue.str "Cursor"))

/-- _valuePropertyIsNull (lines 100-103):
widget && widget.properties && widget.properties.value === ''.
Each access is guarded by the truthiness of the receiver, so no access
can throw. -/
def _valuePropertyIsNull (properties : Obj) : Bool :=
  let widget := getFieldD properties "widget"
  jsTruthy widget &&
    jsTruthy (propAcc widget "properties") &&
    strictEq (propAcc (propAcc widget "properties") "value") (JsValue.str "")

/-- The short-circuit condition children.length === 0 ||
this._onlyContainsCursor() used in both guarded branches of
beforeProperties (lines 77 and 85). -/
def visuallyEmpty (self : Instance) : Except Unit Bool :=
  if self.children.length = 0 then Except.ok true else _onlyContainsCursor self

/-- beforeProperties (lines 68-98), the property resolver.  When the
incoming configuration has no truthy widget field it is returned as is
(the spread copy \x7b ...properties \x7d is observably the same object).
Otherwise the result is built from object literals whose spreads are
concatenations, last assignment winning on lookup:
container and visually empty ->
  \x7b extraClasses: ..., ...properties.widget.properties, ...properties \x7d;
value empty and visually empty ->
  \x7b ...properties.widget.properties, ...properties, value: getDefaultValue() \x7d;
otherwise \x7b ...properties.widget.properties, ...properties \x7d. -/
def beforeProperties (self : Instance) (properties : Obj) : Except Unit Obj := do
  if ¬ jsTruthy (getFieldD properties "widget") then
    return properties
  let widgetVal := getFieldD properties "widget"
  let wprops ← member widgetVal "properties"
  let persisted := spreadFields wprops
  let containerEmpty ←
    if self.isContainer then visuallyEmpty self else Except.ok false
  if containerEmpty then
    return ("extraClasses", emptyContainerExtra) :: (persisted ++ properties)
  let valueEmpty ←
    if _valuePropertyIsNull properties then visuallyEmpty self else Except.ok false
  if valueEmpty then
    return persisted ++ properties ++ [("value", JsValue.str self.getDefaultValue)]
  return persisted ++ properties

/-- The rendered output handed to afterRender: a single DNode or an
array of DNodes (Array.isArray distinguishes the two). -/
inductive RenderResult where
  | single (n : JsValue) : RenderResult
  | arr (ns : List JsValue) : RenderResult
deriving Repr

/-- An element of the final output sequence produced by afterRender:
a DNode coming from the wrapped render (node), the injected
w(Overlay, ...) node carrying the measured dimensions and the bound
_onMouseUp handler, the injected v(span, deferred) compensation node
capturing the arguments of its deferred _tryFocus call, or the null
DNode returned by _renderTriggerResizeNode for unfocused instances. -/
inductive OutNode (Dim : Type) where
  | node (v : JsValue) : OutNode Dim
  | overlayNode (dimensions : Dim) (onMouseUp : String) : OutNode Dim
  | triggerSpan (widget activeWidgetId onFocus : JsValue) (key : String) : OutNode Dim
  | nullNode : OutNode Dim
deriving Repr

/-- Observable calls into the collaborating services: stopping event
propagation, this.meta(Dimensions).get, this.meta(Resize).get, and an
invocation of the onFocus callback with its payload fields. -/
inductive Effect (Dim : Type) where
  | stopImmediatePropagation : Effect Dim
  | dimensionsGet (key : String) : Effect Dim
  | resizeGet (key : String) : Effect Dim
  | focusCall (activeWidgetDimensions : Dim) (activeWidgetId : JsValue) : Effect Dim
deriving Repr

/-- The predicate of the find call in afterRender (lines 133-135):
elm !== null && elm.properties.key !== undefined.  The second conjunct
dereferences elm.properties, so it throws on undefined elements and on
string elements (whose .properties is undefined). -/
def keyedPred (elm : JsValue) : Except Unit Bool :=
  if strictEq elm JsValue.null then
    Except.ok false
  else do
    let props ← member elm "properties"
    let k ← member props "key"
    Except.ok (!strictEq k JsValue.undefined)

/-- Array.prototype.find over keyedPred, returning the index of the
first match (none models the undefined result). -/
def findKeyedIdx : List JsValue → Except Unit (Option Nat)
  | [] => Except.ok none
  | e :: rest => do
    let b ← keyedPred e
    if b then
      Except.ok (some 0)
    else do
      let r ← findKeyedIdx rest
      Except.ok (r.map (· + 1))

/-- The in-place mutation widgetNode.properties.onmouseup =
this._onMouseUp (line 153), as the value it leaves behind: the
properties object gains an onmouseup field bound to _onMouseUp. -/
def attachMouseUp (node : JsValue) : JsValue :=
  match node with
  | JsValue.obj fs =>
    JsValue.obj (fs ++ [("properties",
      match getFieldD fs "properties" with
      | JsValue.obj pfs => JsValue.obj (pfs ++ [("onmouseup", JsValue.func "_onMouseUp")])
      | other => other)])
  | other => other

/-- _renderTriggerResizeNode (lines 158-168): destructures widget,
activeWidgetId and onFocus from this.properties, tests
widget.id === activeWidgetId (throwing when widget is undefined), and
either builds the deferred-properties span or returns null. -/
def _renderTriggerResizeNode {Dim : Type} (self : Instance) (key : String) :
    Except Unit (OutNode Dim) := do
  let widget := getFieldD self.properties "widget"
  let activeWidgetId := getFieldD self.properties "activeWidgetId"
  let onFocus := getFieldD self.properties "onFocus"
  let idv ← member widget "id"
  if strictEq idv activeWidgetId then
    Except.ok (OutNode.triggerSpan widget activeWidgetId onFocus key)
  else
    Except.ok OutNode.nullNode

/-- afterRender (lines 126-156).  The measurement service
this.meta(Dimensions).get is the function dims.  Returns the new value
of this._key together with the final output sequence; Except.error
models a thrown TypeError.  In the array case with no keyed element,
find yields undefined and String(widgetNode.properties.key) throws. -/
def afterRender {Dim : Type} (dims : String → Dim) (self : Instance)
    (result : RenderResult) : Except Unit (String × List (OutNode Dim)) := do
  match result with
  | RenderResult.arr ns => do
    let idx ← findKeyedIdx ns
    match idx with
    | none => Except.error ()
    | some i =>
      let widgetNode := ns.getD i JsValue.undefined
      let wnProps ← member widgetNode "properties"
      let kv ← member wnProps "key"
      let key := jsToString kv
      if self.needOverlay then do
        let overlay := OutNode.overlayNode (dims key) "_onMouseUp"
        let trig ← _renderTriggerResizeNode self key
        Except.ok (key, ns.map OutNode.node ++ [overlay, trig])
      else do
        let mutated := ns.set i (attachMouseUp widgetNode)
        let trig ← _renderTriggerResizeNode self key
        Except.ok (key, mutated.map OutNode.node ++ [trig])
  | RenderResult.single n => do
    let wnProps ← member n "properties"
    let kv ← member wnProps "key"
    let key := jsToString kv
    if self.needOverlay then do
      let overlay := OutNode.overlayNode (dims key) "_onMouseUp"
      let trig ← _renderTriggerResizeNode self key
      Except.ok (key, [OutNode.node n, overlay, trig])
    else do
      let trig ← _renderTriggerResizeNode self key
      Except.ok (key, [OutNode.node (attachMouseUp n), trig])

/-- _focus (lines 190-204): re-reads widget from this.properties,
measures Dimensions at key, registers Resize interest at String(key)
(key is already a string, so String(key) is key itself), and calls
onFocus, when truthy, with the measured dimensions and widget.id.  The
activeWidgetId parameter of the source is carried but unused: the
payload uses widget.id. -/
def _focus {Dim : Type} (dims : String → Dim) (self : Instance)
    (onFocus activeWidgetId : JsValue) (key : String) :
    Except Unit (List (Effect Dim)) := do
  let widget := getFieldD self.properties "widget"
  let measured := dims key
  if jsTruthy onFocus then do
    let idv ← member widget "id"
    Except.ok [Effect.dimensionsGet key, Effect.resizeGet key,
      Effect.focusCall measured idv]
  else
    Except.ok [Effect.dimensionsGet key, Effect.resizeGet key]

/-- _tryFocus (lines 174-188): re-checks widget.id === activeWidgetId
and delegates to _focus. -/
def _tryFocus {Dim : Type} (dims : String → Dim) (self : Instance)
    (widget activeWidgetId onFocus : JsValue) (key : String) :
    Except Unit (List (Effect Dim)) := do
  let idv ← member widget "id"
  if strictEq idv activeWidgetId then
    _focus dims self onFocus activeWidgetId key
  else
    Except.ok []

/-- Running the compensation node's deferred properties callback
(lines 162-165): perform the _tryFocus side effect, then return the
properties object \x7b key: this._triggerResizeWidgetKey \x7d that gives the
span its key. -/
def runTriggerDeferred {Dim : Type} (dims : String → Dim) (self : Instance)
    (widget activeWidgetId onFocus : JsValue) (key : String) :
    Except Unit (List (Effect Dim) × Obj) := do
  let effs ← _tryFocus dims self widget activeWidgetId onFocus key
  Except.ok (effs, [("key", JsValue.str triggerResizeWidgetKey)])

/-- _onMouseUp (lines 51-58).  Returns the effects performed in order
together with a flag recording whether a TypeError escaped (effects
before the throw are kept: stopImmediatePropagation and the Dimensions
lookup precede the payload evaluation).  An undefined event is a
complete no-op. -/
def _onMouseUp {Dim : Type} (dims : String → Dim) (self : Instance)
    (event : Option Unit) : List (Effect Dim) × Bool :=
  match event with
  | none => ([], false)
  | some _ =>
    let onFocus := getFieldD self.properties "onFocus"
    let widget := getFieldD self.properties "widget"
    let measured := dims self._key
    let pre := [Effect.stopImmediatePropagation, Effect.dimensionsGet self._key]
    if jsTruthy onFocus then
      match member widget "id" with
      | Except.error _ => (pre, true)
      | Except.ok idv => (pre ++ [Effect.focusCall measured idv], false)
    else
      (pre, false)

/-! Helper lemmas about object lookup and the embedded functions. -/

/-- Looking a field up in a spread concatenation: a binding in the later
segment wins. -/
theorem getField_append_some {b : Obj} {k : String} {v : JsValue}
    (h : getField b k = some v) (a : Obj) : getField (a ++ b) k = some v := by
  induction a with
  | nil => simpa using h
  | cons p rest ih =>
    cases p with
    | mk k2 w => simp [getField, ih]

/-- Looking a field up in a spread concatenation: when the later segment
lacks the field, the earlier segment decides. -/
theorem getField_append_none {b : Obj} {k : String}
    (h : getField b k = none) (a : Obj) : getField (a ++ b) k = getField a k := by
  induction a with
  | nil => simpa using h
  | cons p rest ih =>
    cases p with
    | mk k2 w => simp [getField, ih]

/-- Property access on a truthy receiver never throws. -/
theorem member_of_truthy (v : JsValue) (k : String) (h : jsTruthy v = true) :
    member v k = Except.ok (propAcc v k) := by
  cases v <;> simp_all [jsTruthy, member, propAcc]

/-- A successful _renderTriggerResizeNode call returns either the
compensation span built from this.properties or the null DNode. -/
theorem renderTrigger_cases {Dim : Type} (self : Instance) (key : String) (t : OutNode Dim)
    (h : _renderTriggerResizeNode self key = Except.ok t) :
    t = OutNode.triggerSpan (getFieldD self.properties "widget")
        (getFieldD self.properties "activeWidgetId")
        (getFieldD self.properties "onFocus") key ∨ t = OutNode.nullNode := by
  unfold _renderTriggerResizeNode at h
  cases hm : member (getFieldD self.properties "widget") "id" with
  | error e => simp [hm, bind, Except.bind] at h
  | ok idv =>
    simp only [hm, bind, Except.bind] at h
    split at h <;> simp_all

/-- Every successful afterRender run produces the passed-through render
nodes (plus, at most, the overlay) followed by exactly one
_renderTriggerResizeNode result in final position. -/
theorem afterRender_shape {Dim : Type} (dims : String → Dim) (self : Instance)
    (res : RenderResult) (k : String) (out : List (OutNode Dim))
    (h : afterRender dims self res = Except.ok (k, out)) :
    ∃ base trig, out = base ++ [trig] ∧ _renderTriggerResizeNode self k = Except.ok trig ∧
      ∀ x ∈ base, (∃ v, x = OutNode.node v) ∨ (∃ d, x = OutNode.overlayNode d "_onMouseUp") := by
  cases res with
  | arr ns =>
    unfold afterRender at h
    cases hidx : findKeyedIdx ns with
    | error e => simp [hidx, bind, Except.bind] at h
    | ok idx =>
      cases idx with
      | none => simp [hidx, bind, Except.bind] at h
      | some i =>
        simp only [hidx, bind, Except.bind] at h
        split at h
        · simp at h
        · rename_i wnProps hp
          split at h
          · simp at h
          · rename_i kv hk
            by_cases hov : self.needOverlay = true
            · rw [if_pos hov] at h
              split at h
              · simp at h
              · rename_i trig htr
                simp only [Except.ok.injEq, Prod.mk.injEq] at h
                obtain ⟨hk2, hout⟩ := h
                subst hk2
                subst hout
                refine ⟨ns.map OutNode.node ++ [OutNode.overlayNode (dims (jsToString kv)) "_onMouseUp"],
                  trig, by simp, htr, ?_⟩
                intro x hx
                simp only [List.mem_append, List.mem_map, List.mem_singleton] at hx
                rcases hx with ⟨v, _, rfl⟩ | rfl
                · exact Or.inl ⟨v, rfl⟩
                · exact Or.inr ⟨_, rfl⟩
            · rw [if_neg hov] at h
              split at h
              · simp at h
              · rename_i trig htr
                simp only [Except.ok.injEq, Prod.mk.injEq] at h
                obtain ⟨hk2, hout⟩ := h
                subst hk2
                subst hout
                refine ⟨(ns.set i (attachMouseUp (ns.getD i JsValue.undefined))).map OutNode.node,
                  trig, rfl, htr, ?_⟩
                intro x hx
                simp only [List.mem_map] at hx
                rcases hx with ⟨v, _, rfl⟩
                exact Or.inl ⟨v, rfl⟩
  | single n =>
    unfold afterRender at h
    simp only [bind, Except.bind] at h
    split at h
    · simp at h
    · rename_i wnProps hp
      split at h
      · simp at h
      · rename_i kv hk
        by_cases hov : self.needOverlay = true
        · rw [if_pos hov] at h
          split at h
          · simp at h
          · rename_i trig htr
            simp only [Except.ok.injEq, Prod.mk.injEq] at h
            obtain ⟨hk2, hout⟩ := h
            subst hk2
            subst hout
            refine ⟨[OutNode.node n, OutNode.overlayNode (dims (jsToString kv)) "_onMouseUp"],
              trig, rfl, htr, ?_⟩
            intro x hx
            simp only [List.mem_cons, List.mem_singleton] at hx
            rcases hx with rfl | rfl | h0
            · exact Or.inl ⟨n, rfl⟩
            · exact Or.inr ⟨_, rfl⟩
            · cases h0
        · rw [if_neg hov] at h
          split at h
          · simp at h
          · rename_i trig htr
            simp only [Except.ok.injEq, Prod.mk.injEq] at h
            obtain ⟨hk2, hout⟩ := h
            subst hk2
            subst hout
            refine ⟨[OutNode.node (attachMouseUp n)], trig, rfl, htr, ?_⟩
            intro x hx
            simp only [List.mem_singleton] at hx
            subst hx
            exact Or.inl ⟨_, rfl⟩

/-- In the single-node case, the recorded key is the String coercion of
the key field of the primary node. -/
theorem afterRender_single_key {Dim : Type} (dims : String → Dim) (self : Instance)
    (n wnProps kv : JsValue) (k : String) (out : List (OutNode Dim))
    (hp : member n "properties" = Except.ok wnProps)
    (hk : member wnProps "key" = Except.ok kv)
    (h : afterRender dims self (RenderResult.single n) = Except.ok (k, out)) :
    k = jsToString kv := by
  unfold afterRender at h
  simp only [hp, hk, bind, Except.bind] at h
  by_cases hov : self.needOverlay = true
  · rw [if_pos hov] at h
    split at h
    · simp at h
    · simp only [Except.ok.injEq, Prod.mk.injEq] at h
      exact h.1.symm
  · rw [if_neg hov] at h
    split at h
    · simp at h
    · simp only [Except.ok.injEq, Prod.mk.injEq] at h
      exact h.1.symm

/-- In the array case, the recorded key is the String coercion of the
key field of the first keyed element. -/
theorem afterRender_arr_key {Dim : Type} (dims : String → Dim) (self : Instance)
    (ns : List JsValue) (i : Nat) (wnProps kv : JsValue) (k : String) (out : List (OutNode Dim))
    (hfind : findKeyedIdx ns = Except.ok (some i))
    (hp : member (ns.getD i JsValue.undefined) "properties" = Except.ok wnProps)
    (hk : member wnProps "key" = Except.ok kv)
    (h : afterRender dims self (RenderResult.arr ns) = Except.ok (k, out)) :
    k = jsToString kv := by
  unfold afterRender at h
  simp only [hfind, hp, hk, bind, Except.bind] at h
  by_cases hov : self.needOverlay = true
  · rw [if_pos hov] at h
    split at h
    · simp at h
    · simp only [Except.ok.injEq, Prod.mk.injEq] at h
      exact h.1.symm
  · rw [if_neg hov] at h
    split at h
    · simp at h
    · simp only [Except.ok.injEq, Prod.mk.injEq] at h
      exact h.1.symm

/-- Recogniser for onFocus invocations among the recorded effects. -/
def isFocusCall {Dim : Type} : Effect Dim → Bool
  | Effect.focusCall _ _ => true
  | _ => false

/-! Concrete values used by witnesses and counterexamples. -/

/-- A sample persisted design-time widget model. -/
def sampleWidget : JsValue :=
  JsValue.obj [("id", JsValue.str "42"), ("properties", JsValue.obj [("label", JsValue.str "txt")])]

/-- A sample resolved configuration whose instance holds focus. -/
def sampleProps : Obj :=
  [("widget", sampleWidget), ("activeWidgetId", JsValue.str "42"), ("onFocus", JsValue.func "onFocus")]

/-- A sample leaf instance. -/
def sampleInst : Instance :=
  { isContainer := false, needOverlay := false, getDefaultValue := "",
    children := [], properties := sampleProps, _key := "k0" }

/-- A VNode with a defined key. -/
def keyedNode : JsValue := JsValue.obj [("properties", JsValue.obj [("key", JsValue.str "a")])]

/-- A VNode without a key field. -/
def keylessNode : JsValue := JsValue.obj [("properties", JsValue.obj [])]

/-- The DesignerCursorMarker child node. -/
def cursorChild : JsValue :=
  JsValue.obj [("properties", JsValue.obj [("widget",
    JsValue.obj [("widgetName", JsValue.str "Cursor")])])]

/-! Claim C1. -/

/-- Incoming configuration of the C1 counterexample: a container whose
incoming configuration carries its own extraClasses field. -/
def c1Props : Obj := [("widget", sampleWidget), ("extraClasses", JsValue.str "customClass")]

/-- The C1 counterexample instance: a container with zero children. -/
def c1Inst : Instance :=
  { isContainer := true, needOverlay := false, getDefaultValue := "",
    children := [], properties := c1Props, _key := "" }

/-- Claim C1, counterexample.  The claim says the forced empty-container
style class wins over any extraClasses field of the incoming
configuration and that the resolved style classes always include the
placeholder class.  On this container with zero children and an
incoming extraClasses field, the resolver returns the incoming value
customClass, which is not the forced placeholder object: in the source
the forced class is written first in the object literal, so both
spreads override it. -/
theorem c1_forced_class_loses_counterexample :
    (beforeProperties c1Inst c1Props).map (fun r => getField r "extraClasses")
      = Except.ok (some (JsValue.str "customClass")) ∧
    strictEq (JsValue.str "customClass") emptyContainerExtra = false :=
  ⟨rfl, rfl⟩

/-- Claim C1 (amended): for a container instance that is visually empty
(zero children or cursor-only, the visuallyEmpty condition succeeding
with true) and a truthy widget field, the resolver result is the forced
empty-container class acting as a default, overridden field-by-field by
the persisted widget.properties and then by the incoming configuration;
consequently the resolved extraClasses is the placeholder class exactly
when neither persisted nor incoming configuration defines an
extraClasses field. -/
theorem c1_empty_container_default_class (self : Instance) (properties : Obj)
    (hw : jsTruthy (getFieldD properties "widget") = true)
    (hc : self.isContainer = true)
    (he : visuallyEmpty self = Except.ok true) :
    beforeProperties self properties =
      Except.ok (("extraClasses", emptyContainerExtra) ::
        (spreadFields (propAcc (getFieldD properties "widget") "properties") ++ properties)) ∧
    (getField (spreadFields (propAcc (getFieldD properties "widget") "properties") ++ properties)
        "extraClasses" = none →
      (beforeProperties self properties).map (fun r => getField r "extraClasses")
        = Except.ok (some emptyContainerExtra)) := by
  have h1 : beforeProperties self properties =
      Except.ok (("extraClasses", emptyContainerExtra) ::
        (spreadFields (propAcc (getFieldD properties "widget") "properties") ++ properties)) := by
    simp [beforeProperties, hw, hc, he, member_of_truthy _ _ hw, bind, Except.bind, pure, Except.pure]
  refine ⟨h1, ?_⟩
  intro habs
  rw [h1]
  simp [Except.map, getField, habs]

/-- Incoming configuration of the C1 witness, without extraClasses. -/
def c1wProps : Obj := [("widget", sampleWidget)]

/-- The C1 witness instance: an empty container. -/
def c1wInst : Instance :=
  { isContainer := true, needOverlay := false, getDefaultValue := "",
    children := [], properties := c1wProps, _key := "" }

/-- Witness for the amended claim C1 at a concrete empty container whose
configurations define no extraClasses: the resolved extraClasses is the
placeholder. -/
theorem c1_empty_container_default_class_witness :
    (beforeProperties c1wInst c1wProps).map (fun r => getField r "extraClasses")
      = Except.ok (some emptyContainerExtra) :=
  (c1_empty_container_default_class c1wInst c1wProps rfl rfl rfl).2 rfl

/-! Claim C2. -/

/-- Claim C2, counterexample.  The claim says that for a rendered
sequence with no element carrying a defined key the postprocessor does
not raise.  On a one-element sequence whose node has no key field, the
source finds no keyed node, leaves widgetNode undefined, and the access
widgetNode.properties in String(widgetNode.properties.key) throws a
TypeError: afterRender evaluates to an error, not to a degraded
render. -/
theorem c2_no_keyed_element_raises_counterexample :
    afterRender (fun k => (k : String)) sampleInst (RenderResult.arr [keylessNode])
      = Except.error () := rfl

/-- Claim C2 (amended): for every rendered output that is a sequence in
which the key search completes without finding an element with a
defined key, afterRender throws a TypeError (the graceful degradation
via the string undefined only happens on the single-node path, settled
in claim C9). -/
theorem c2_no_keyed_element_throws {Dim : Type} (dims : String → Dim) (self : Instance)
    (ns : List JsValue) (h : findKeyedIdx ns = Except.ok none) :
    afterRender dims self (RenderResult.arr ns) = Except.error () := by
  simp [afterRender, h, bind, Except.bind]

/-- Witness for the amended claim C2 on a sequence holding one null
element: the search succeeds finding nothing, and afterRender throws. -/
theorem c2_no_keyed_element_throws_witness :
    afterRender (fun k => (k : String)) sampleInst (RenderResult.arr [JsValue.null])
      = Except.error () :=
  c2_no_keyed_element_throws (fun k => k) sampleInst [JsValue.null] rfl

/-! Claim C3. -/

/-- Claim C3: for a non-container instance whose persisted value is the
empty string (the _valuePropertyIsNull test) and which is visually
empty, the resolver result is persisted properties overridden by the
incoming configuration with the value field forced last to
getDefaultValue, so the resolved value is the default value while the
widget field of the result is the untouched original widget object
(whose persisted properties, value included, are unchanged: the
resolution builds a new object and never writes into
widget.properties). -/
theorem c3_empty_value_forced_default (self : Instance) (properties : Obj)
    (hnc : self.isContainer = false)
    (hv : _valuePropertyIsNull properties = true)
    (he : visuallyEmpty self = Except.ok true) :
    beforeProperties self properties =
      Except.ok (spreadFields (propAcc (getFieldD properties "widget") "properties")
        ++ properties ++ [("value", JsValue.str self.getDefaultValue)]) ∧
    (beforeProperties self properties).map (fun r => getField r "value")
      = Except.ok (some (JsValue.str self.getDefaultValue)) ∧
    (beforeProperties self properties).map (fun r => getField r "widget")
      = Except.ok (getField properties "widget") := by
  have hw : jsTruthy (getFieldD properties "widget") = true := by
    simp only [_valuePropertyIsNull, Bool.and_eq_true] at hv
    exact hv.1.1
  have h1 : beforeProperties self properties =
      Except.ok (spreadFields (propAcc (getFieldD properties "widget") "properties")
        ++ properties ++ [("value", JsValue.str self.getDefaultValue)]) := by
    simp [beforeProperties, hnc, hv, hw, he, member_of_truthy _ _ hw, bind, Except.bind,
      pure, Except.pure]
  obtain ⟨w, hgw⟩ : ∃ w, getField properties "widget" = some w := by
    cases hgw2 : getField properties "widget" with
    | none => rw [getFieldD, hgw2] at hw; simp [jsTruthy] at hw
    | some w => exact ⟨w, rfl⟩
  refine ⟨h1, ?_, ?_⟩
  · rw [h1]
    simp only [Except.map]
    have hv2 : getField (spreadFields (propAcc (getFieldD properties "widget") "properties")
        ++ properties ++ [("value", JsValue.str self.getDefaultValue)]) "value"
        = some (JsValue.str self.getDefaultValue) :=
      getField_append_some (by simp [getField]) _
    rw [hv2]
  · rw [h1]
    simp only [Except.map]
    have hnone : getField ([("value", JsValue.str self.getDefaultValue)] : Obj) "widget"
        = none := by
      simp [getField]
    rw [getField_append_none hnone _, getField_append_some hgw _, hgw]

/-- The persisted widget of the C3 witness, with empty string value. -/
def c3Widget : JsValue :=
  JsValue.obj [("id", JsValue.str "7"), ("properties", JsValue.obj [("value", JsValue.str "")])]

/-- Incoming configuration of the C3 witness. -/
def c3Props : Obj := [("widget", c3Widget)]

/-- The C3 witness instance: a childless non-container with overridden
default value. -/
def c3Inst : Instance :=
  { isContainer := false, needOverlay := false, getDefaultValue := "dflt",
    children := [], properties := c3Props, _key := "" }

/-- Witness for claim C3 at a concrete childless value-bearing instance:
the resolved value is the declared default. -/
theorem c3_empty_value_forced_default_witness :
    (beforeProperties c3Inst c3Props).map (fun r => getField r "value")
      = Except.ok (some (JsValue.str "dflt")) := by
  exact (c3_empty_value_forced_default c3Inst c3Props rfl rfl rfl).2.1

/-! Claim C8. -/

/-- Claim C8: when the incoming configuration has no widget field the
resolver is the identity: the result is the incoming configuration
itself, field for field, whatever the instance state. -/
theorem c8_missing_widget_identity (self : Instance) (properties : Obj)
    (h : getField properties "widget" = none) :
    beforeProperties self properties = Except.ok properties := by
  simp [beforeProperties, getFieldD, h, jsTruthy, pure, Except.pure]

/-- An incoming configuration without a widget field. -/
def c8Props : Obj := [("label", JsValue.str "x")]

/-- Witness for claim C8 at a concrete widget-less configuration. -/
theorem c8_missing_widget_identity_witness :
    beforeProperties sampleInst c8Props = Except.ok c8Props :=
  c8_missing_widget_identity sampleInst c8Props rfl

/-! Claim C4. -/

/-- Claim C4: calling the mouse-up interceptor with no event is a
complete no-op (no effects, no throw); calling it with a defined event
first stops immediate propagation, invokes onFocus at most once, and
any onFocus invocation carries the geometry measured at the recorded
key and the id read from the widget field of this.properties, and only
happens when an onFocus callback is supplied. -/
theorem c4_mouse_up_interceptor {Dim : Type} (dims : String → Dim) (self : Instance) :
    _onMouseUp dims self none = ([], false) ∧
    ∀ e : Unit,
      ((_onMouseUp dims self (some e)).1.head? = some Effect.stopImmediatePropagation) ∧
      ((_onMouseUp dims self (some e)).1.countP (fun x => isFocusCall x) ≤ 1) ∧
      (∀ d idv, Effect.focusCall d idv ∈ (_onMouseUp dims self (some e)).1 →
        d = dims self._key ∧
        member (getFieldD self.properties "widget") "id" = Except.ok idv ∧
        jsTruthy (getFieldD self.properties "onFocus") = true) := by
  refine ⟨rfl, fun e => ?_⟩
  unfold _onMouseUp
  by_cases hof : jsTruthy (getFieldD self.properties "onFocus") = true
  · rw [if_pos hof]
    cases hm : member (getFieldD self.properties "widget") "id" with
    | error err =>
      refine ⟨rfl, by simp [List.countP_cons, List.countP_nil, isFocusCall], ?_⟩
      intro d idv hmem
      simp at hmem
    | ok idv2 =>
      refine ⟨rfl, by simp [List.countP_cons, List.countP_nil, isFocusCall], ?_⟩
      intro d idv hmem
      simp at hmem
      obtain ⟨rfl, rfl⟩ := hmem
      exact ⟨rfl, rfl, hof⟩
  · rw [if_neg hof]
    refine ⟨rfl, by simp [List.countP_cons, List.countP_nil, isFocusCall], ?_⟩
    intro d idv hmem
    simp at hmem

/-- Witness for claim C4 at a concrete instance: the undefined-event
call is a no-op and the defined-event call starts by stopping
propagation. -/
theorem c4_mouse_up_interceptor_witness :
    _onMouseUp (fun k => (k : String)) sampleInst none = ([], false) ∧
    (_onMouseUp (fun k => (k : String)) sampleInst (some ())).1.head?
      = some Effect.stopImmediatePropagation :=
  ⟨(c4_mouse_up_interceptor (fun k => k) sampleInst).1,
    ((c4_mouse_up_interceptor (fun k => k) sampleInst).2 ()).1⟩

/-! Claim C5. -/

/-- Claim C5: for both render shapes afterRender handles, an array whose
first keyed element is found and a single primary node, when needOverlay
is true the output is the untouched render nodes followed by the overlay
node carrying the measured geometry of the recorded key and the bound
mouse-up handler (the primary node itself is not mutated), followed by
the compensation slot; when needOverlay is false the primary node gets
onmouseup attached in place and no overlay node appears anywhere in the
output. -/
theorem c5_overlay_branching {Dim : Type} (dims : String → Dim) (self : Instance)
    (ns : List JsValue) (i : Nat) (wnProps kv : JsValue) (trig : OutNode Dim)
    (n wnP kvS : JsValue) (trigS : OutNode Dim)
    (hfind : findKeyedIdx ns = Except.ok (some i))
    (hp : member (ns.getD i JsValue.undefined) "properties" = Except.ok wnProps)
    (hk : member wnProps "key" = Except.ok kv)
    (htr : _renderTriggerResizeNode self (jsToString kv) = Except.ok trig)
    (hpS : member n "properties" = Except.ok wnP)
    (hkS : member wnP "key" = Except.ok kvS)
    (htrS : _renderTriggerResizeNode self (jsToString kvS) = Except.ok trigS) :
    (self.needOverlay = true →
      afterRender dims self (RenderResult.arr ns) =
        Except.ok (jsToString kv, ns.map OutNode.node
          ++ [OutNode.overlayNode (dims (jsToString kv)) "_onMouseUp", trig]) ∧
      afterRender dims self (RenderResult.single n) =
        Except.ok (jsToString kvS, [OutNode.node n,
          OutNode.overlayNode (dims (jsToString kvS)) "_onMouseUp", trigS])) ∧
    (self.needOverlay = false →
      (afterRender dims self (RenderResult.arr ns) =
        Except.ok (jsToString kv,
          (ns.set i (attachMouseUp (ns.getD i JsValue.undefined))).map OutNode.node ++ [trig]) ∧
       ∀ d hnd, OutNode.overlayNode d hnd ∉
        ((ns.set i (attachMouseUp (ns.getD i JsValue.undefined))).map OutNode.node ++ [trig])) ∧
      (afterRender dims self (RenderResult.single n) =
        Except.ok (jsToString kvS, [OutNode.node (attachMouseUp n), trigS]) ∧
       ∀ d hnd, OutNode.overlayNode d hnd ∉
        ([OutNode.node (attachMouseUp n), trigS] : List (OutNode Dim)))) := by
  constructor
  · intro hov
    constructor
    · unfold afterRender
      simp only [hfind, hp, hk, htr, hov, bind, Except.bind, eq_self_iff_true, if_true]
    · unfold afterRender
      simp only [hpS, hkS, htrS, hov, bind, Except.bind, eq_self_iff_true, if_true]
  · intro hov
    constructor
    · have heq : afterRender dims self (RenderResult.arr ns) =
          Except.ok (jsToString kv,
            (ns.set i (attachMouseUp (ns.getD i JsValue.undefined))).map OutNode.node ++ [trig]) := by
        unfold afterRender
        simp only [hfind, hp, hk, htr, hov, bind, Except.bind, Bool.false_eq_true, if_false]
      refine ⟨heq, ?_⟩
      intro d hnd hmem
      simp only [List.mem_append, List.mem_map, List.mem_singleton] at hmem
      rcases hmem with ⟨v, _, hveq⟩ | hteq
      · exact OutNode.noConfusion hveq
      · rcases renderTrigger_cases self (jsToString kv) trig htr with h1 | h1 <;>
          rw [h1] at hteq <;> exact OutNode.noConfusion hteq
    · have heqS : afterRender dims self (RenderResult.single n) =
          Except.ok (jsToString kvS, [OutNode.node (attachMouseUp n), trigS]) := by
        unfold afterRender
        simp only [hpS, hkS, htrS, hov, bind, Except.bind, Bool.false_eq_true, if_false]
      refine ⟨heqS, ?_⟩
      intro d hnd hmem
      simp only [List.mem_cons, List.not_mem_nil, or_false] at hmem
      rcases hmem with hveq | hteq
      · exact OutNode.noConfusion hveq
      · rcases renderTrigger_cases self (jsToString kvS) trigS htrS with h1 | h1 <;>
          rw [h1] at hteq <;> exact OutNode.noConfusion hteq

/-- Witness for claim C5 on concrete keyed renders without overlay, an
array one and a single-node one: in both, the handler is attached to
the primary node in place and only the compensation span is appended. -/
theorem c5_overlay_branching_witness :
    (afterRender (fun k => (k : String)) sampleInst (RenderResult.arr [keyedNode]) =
      Except.ok ("a",
        (([keyedNode] : List JsValue).set 0
          (attachMouseUp (([keyedNode] : List JsValue).getD 0 JsValue.undefined))).map OutNode.node
          ++ [OutNode.triggerSpan sampleWidget (JsValue.str "42") (JsValue.func "onFocus") "a"])) ∧
    (afterRender (fun k => (k : String)) sampleInst (RenderResult.single keyedNode) =
      Except.ok ("a", [OutNode.node (attachMouseUp keyedNode),
        OutNode.triggerSpan sampleWidget (JsValue.str "42") (JsValue.func "onFocus") "a"])) :=
  ⟨(((c5_overlay_branching (fun k => k) sampleInst [keyedNode] 0
      (JsValue.obj [("key", JsValue.str "a")]) (JsValue.str "a")
      (OutNode.triggerSpan sampleWidget (JsValue.str "42") (JsValue.func "onFocus") "a")
      keyedNode (JsValue.obj [("key", JsValue.str "a")]) (JsValue.str "a")
      (OutNode.triggerSpan sampleWidget (JsValue.str "42") (JsValue.func "onFocus") "a")
      rfl rfl rfl rfl rfl rfl rfl).2 rfl).1).1,
   (((c5_overlay_branching (fun k => k) sampleInst [keyedNode] 0
      (JsValue.obj [("key", JsValue.str "a")]) (JsValue.str "a")
      (OutNode.triggerSpan sampleWidget (JsValue.str "42") (JsValue.func "onFocus") "a")
      keyedNode (JsValue.obj [("key", JsValue.str "a")]) (JsValue.str "a")
      (OutNode.triggerSpan sampleWidget (JsValue.str "42") (JsValue.func "onFocus") "a")
      rfl rfl rfl rfl rfl rfl rfl).2 rfl).2).1⟩

/-! Claim C6. -/

/-- Claim C6: whenever afterRender succeeds on a focused instance
(widget.id strictly equal to activeWidgetId), the output sequence ends
with the compensation span for the recorded key, and running its
deferred properties always hands the span the one reserved key
__triggerResize__, the same constant on every render; when the instance
is not focused, no compensation span occurs anywhere in the output, for
any render. -/
theorem c6_compensation_node_key {Dim : Type} (dims : String → Dim) (self : Instance)
    (res : RenderResult) (k : String) (out : List (OutNode Dim)) (idv : JsValue)
    (hid : member (getFieldD self.properties "widget") "id" = Except.ok idv)
    (h : afterRender dims self res = Except.ok (k, out)) :
    (strictEq idv (getFieldD self.properties "activeWidgetId") = true →
      out.getLast? = some (OutNode.triggerSpan (getFieldD self.properties "widget")
        (getFieldD self.properties "activeWidgetId") (getFieldD self.properties "onFocus") k) ∧
      ∀ effs props,
        runTriggerDeferred dims self (getFieldD self.properties "widget")
          (getFieldD self.properties "activeWidgetId") (getFieldD self.properties "onFocus") k
          = Except.ok (effs, props) →
        getField props "key" = some (JsValue.str "__triggerResize__")) ∧
    (strictEq idv (getFieldD self.properties "activeWidgetId") = false →
      ∀ w a f kk, OutNode.triggerSpan w a f kk ∉ out) := by
  obtain ⟨base, trig, hout, htrig, hbase⟩ := afterRender_shape dims self res k out h
  constructor
  · intro hfoc
    have htrig2 : trig = OutNode.triggerSpan (getFieldD self.properties "widget")
        (getFieldD self.properties "activeWidgetId") (getFieldD self.properties "onFocus") k := by
      unfold _renderTriggerResizeNode at htrig
      simp only [hid, bind, Except.bind, hfoc, if_true] at htrig
      simp at htrig
      exact htrig.symm
    constructor
    · rw [hout, htrig2]
      simp
    · intro effs props hrun
      unfold runTriggerDeferred at hrun
      cases ht : _tryFocus dims self (getFieldD self.properties "widget")
          (getFieldD self.properties "activeWidgetId") (getFieldD self.properties "onFocus") k with
      | error e => rw [ht] at hrun; simp [bind, Except.bind] at hrun
      | ok effs0 =>
        rw [ht] at hrun
        simp only [bind, Except.bind, Except.ok.injEq, Prod.mk.injEq] at hrun
        obtain ⟨-, hprops⟩ := hrun
        subst hprops
        rfl
  · intro hfoc w a f kk hmem
    have htrig2 : trig = OutNode.nullNode := by
      unfold _renderTriggerResizeNode at htrig
      simp only [hid, bind, Except.bind, hfoc] at htrig
      simp at htrig
      exact htrig.symm
    rw [hout] at hmem
    simp only [List.mem_append, List.mem_singleton] at hmem
    rcases hmem with hmem | hmem
    · rcases hbase _ hmem with ⟨v, hv⟩ | ⟨d, hd⟩
      · exact OutNode.noConfusion hv
      · exact OutNode.noConfusion hd
    · rw [htrig2] at hmem
      exact OutNode.noConfusion hmem

/-- The concrete output of the C6 witness render. -/
def c6Out : List (OutNode String) :=
  [OutNode.node (JsValue.obj [("properties", JsValue.obj [("key", JsValue.str "a")]),
      ("properties", JsValue.obj [("key", JsValue.str "a"), ("onmouseup", JsValue.func "_onMouseUp")])]),
   OutNode.triggerSpan sampleWidget (JsValue.str "42") (JsValue.func "onFocus") "a"]

/-- Witness for claim C6 on a concrete focused render: the output ends
with the compensation span. -/
theorem c6_compensation_node_key_witness :
    c6Out.getLast? = some (OutNode.triggerSpan (getFieldD sampleInst.properties "widget")
      (getFieldD sampleInst.properties "activeWidgetId")
      (getFieldD sampleInst.properties "onFocus") "a") :=
  ((c6_compensation_node_key (fun k => (k : String)) sampleInst (RenderResult.arr [keyedNode])
      "a" c6Out (JsValue.str "42") rfl rfl).1 rfl).1

/-! Claim C7. -/

/-- Claim C7: running the deferred side effect of the compensation node
of a focused instance (widget.id strictly equal to activeWidgetId)
measures the geometry at the given key, registers layout-change
interest, and, when an onFocus callback is present, invokes onFocus
exactly once with that freshly measured geometry and the id read back
from the widget of this.properties, without waiting for the
layout-change registration to fire; when onFocus is not truthy, the
invocation is skipped and no error occurs. -/
theorem c7_deferred_focus_effects {Dim : Type} (dims : String → Dim) (self : Instance)
    (widget activeWidgetId onFocus : JsValue) (key : String) (idv selfId : JsValue)
    (hid : member widget "id" = Except.ok idv)
    (hf : strictEq idv activeWidgetId = true)
    (hsid : member (getFieldD self.properties "widget") "id" = Except.ok selfId) :
    (jsTruthy onFocus = true →
      runTriggerDeferred dims self widget activeWidgetId onFocus key =
        Except.ok ([Effect.dimensionsGet key, Effect.resizeGet key,
          Effect.focusCall (dims key) selfId],
          [("key", JsValue.str triggerResizeWidgetKey)])) ∧
    (jsTruthy onFocus = false →
      runTriggerDeferred dims self widget activeWidgetId onFocus key =
        Except.ok ([Effect.dimensionsGet key, Effect.resizeGet key],
          [("key", JsValue.str triggerResizeWidgetKey)])) := by
  constructor <;> intro hof <;>
    simp [runTriggerDeferred, _tryFocus, _focus, hid, hf, hof, hsid, bind, Except.bind]

/-- Witness for claim C7 on a concrete focused instance with onFocus
present: exactly one focusCall effect carrying the fresh measurement
and the widget id. -/
theorem c7_deferred_focus_effects_witness :
    runTriggerDeferred (fun k => (k : String)) sampleInst sampleWidget (JsValue.str "42")
        (JsValue.func "onFocus") "a" =
      Except.ok ([Effect.dimensionsGet "a", Effect.resizeGet "a",
        Effect.focusCall "a" (JsValue.str "42")],
        [("key", JsValue.str triggerResizeWidgetKey)]) :=
  (c7_deferred_focus_effects (fun k => k) sampleInst sampleWidget (JsValue.str "42")
    (JsValue.func "onFocus") "a" (JsValue.str "42") (JsValue.str "42") rfl rfl rfl).1 rfl

/-! Claim C9. -/

/-- Claim C9: the key recorded by afterRender is always the String
coercion of the primary node key field (single-node outputs and array
outputs with a found keyed element alike); in particular a single node
with an undefined key records the literal string undefined, and the
mouse-up measurement lookup on the updated instance is performed with
that recorded string, never with an undefined value. -/
theorem c9_key_string_coercion {Dim : Type} (dims : String → Dim) (self : Instance)
    (n wnProps kv : JsValue) (k : String) (out : List (OutNode Dim))
    (hp : member n "properties" = Except.ok wnProps)
    (hk : member wnProps "key" = Except.ok kv)
    (h : afterRender dims self (RenderResult.single n) = Except.ok (k, out)) :
    k = jsToString kv ∧
    (kv = JsValue.undefined → k = "undefined") ∧
    Effect.dimensionsGet k ∈ (_onMouseUp dims { self with _key := k } (some ())).1 ∧
    (∀ ns i wnp2 kv2 k2 out2,
      findKeyedIdx ns = Except.ok (some i) →
      member (ns.getD i JsValue.undefined) "properties" = Except.ok wnp2 →
      member wnp2 "key" = Except.ok kv2 →
      afterRender dims self (RenderResult.arr ns) = Except.ok (k2, out2) →
      k2 = jsToString kv2) := by
  have hkey := afterRender_single_key dims self n wnProps kv k out hp hk h
  refine ⟨hkey, ?_, ?_, ?_⟩
  · intro hkv
    subst hkv
    simpa [jsToString] using hkey
  · unfold _onMouseUp
    by_cases hof : jsTruthy (getFieldD self.properties "onFocus") = true
    · rw [if_pos hof]
      cases hm : member (getFieldD self.properties "widget") "id" with
      | error err => simp
      | ok idv => simp
    · rw [if_neg hof]
      simp
  · intro ns i wnp2 kv2 k2 out2 hfind2 hp2 hk2 h2
    exact afterRender_arr_key dims self ns i wnp2 kv2 k2 out2 hfind2 hp2 hk2 h2

/-- The concrete output of the C9 witness render of one node without a
key field. -/
def c9Out : List (OutNode String) :=
  [OutNode.node (JsValue.obj [("properties", JsValue.obj []),
      ("properties", JsValue.obj [("onmouseup", JsValue.func "_onMouseUp")])]),
   OutNode.triggerSpan sampleWidget (JsValue.str "42") (JsValue.func "onFocus") "undefined"]

/-- Witness for claim C9 on a concrete keyless single-node render: the
recorded key is the literal string undefined and the mouse-up
measurement lookup uses it. -/
theorem c9_key_string_coercion_witness :
    Effect.dimensionsGet "undefined" ∈
      (_onMouseUp (fun k => (k : String)) { sampleInst with _key := "undefined" } (some ())).1 :=
  (c9_key_string_coercion (fun k => k) sampleInst keylessNode (JsValue.obj [])
    JsValue.undefined "undefined" c9Out rfl rfl rfl).2.2.1

/-! Claim C10. -/

/-- Claim C10: on an instance with exactly one child whose properties
read back as cprops, the cursor classification dereferences the widget
back-reference of that child unconditionally: whenever that widget
reference reads as undefined (or null), the classification throws a
TypeError; whenever it is a defined object, the classification returns
normally and holds exactly when the widgetName field is the string
Cursor. -/
theorem c10_cursor_classification (self : Instance) (child cprops : JsValue)
    (hch : self.children = [child])
    (hp : member child "properties" = Except.ok cprops) :
    ((propAcc cprops "widget" = JsValue.undefined ∨ propAcc cprops "widget" = JsValue.null) →
      _onlyContainsCursor self = Except.error ()) ∧
    (∀ wfields, propAcc cprops "widget" = JsValue.obj wfields →
      _onlyContainsCursor self = Except.ok
        (strictEq (getFieldD wfields "widgetName") (JsValue.str "Cursor"))) := by
  have h1 : _onlyContainsCursor self =
      (do
        let cursorProperties ← member cprops "widget"
        let widgetName ← member cursorProperties "widgetName"
        Except.ok (strictEq widgetName (JsValue.str "Cursor"))) := by
    unfold _onlyContainsCursor
    rw [hch]
    simp [hp, bind, Except.bind]
  constructor
  · intro hw
    rw [h1]
    rcases hw with hw | hw <;>
      cases cprops <;> simp_all [propAcc, member, bind, Except.bind, getFieldD]
  · intro wfields hw
    rw [h1]
    cases cprops <;> simp_all [propAcc, member, bind, Except.bind, getFieldD]

/-- The C10 witness instance: a container whose only child is the
cursor marker. -/
def c10Inst : Instance :=
  { isContainer := true, needOverlay := false, getDefaultValue := "",
    children := [cursorChild], properties := sampleProps, _key := "" }

/-- Witness for claim C10 at the concrete cursor-only child: the
classification returns true without throwing. -/
theorem c10_cursor_classification_witness :
    _onlyContainsCursor c10Inst = Except.ok true := by
  exact (c10_cursor_classification c10Inst cursorChild
    (JsValue.obj [("widget", JsValue.obj [("widgetName", JsValue.str "Cursor")])]) rfl rfl).2
    [("widgetName", JsValue.str "Cursor")] rfl
